import Mathlib

/-!
Verification of the hono-netdi integration shim (src/src/index.ts).

The repository exports two functions:

* `injectServices(serviceProvider)` returns a Hono middleware handler.
  Per invocation the handler runs
  `const scope = serviceProvider.createScope(); c.set(SERVICE_SCOPE_KEY, scope);
   try { await next(); } finally { scope.dispose(); }`.
  Note that `scope.dispose()` is invoked but its result is NOT awaited.

* `useService(c, serviceType)` reads the slot `SERVICE_SCOPE_KEY` from the
  context, throws a configuration error when the value is falsy
  (`if (!scope)`), throws a configuration error when the value is not an
  `instanceof ServiceScope`, and otherwise returns
  `scope.serviceProvider.getService(serviceType)` unchanged.

We embed the JavaScript runtime values that can occupy the context slot, the
container scope with its embedded provider, and the middleware handler as a
function producing an event trace (modelling the asynchronous execution
order), a settled result and a final context.
-/

namespace HonoNetdi

/-- Resolution outcome of the DI container: either a configuration error
raised by this shim, or a resolution error raised by the container itself. -/
inductive DIError where
  | configError (msg : String)
  | resolutionError (msg : String)
deriving DecidableEq, Repr

/-- The embedded service provider of a scope: a finite registration table
from service identifiers (opaque tokens, modelled as naturals) to resolved
instances (opaque, modelled as naturals).  `getService` fails with a
resolution error exactly when the identifier is unregistered. -/
structure Provider where
  services : List (Nat × Nat)
deriving DecidableEq, Repr

/-- Message carried by the container resolution error for an unregistered
identifier. -/
def noServiceMsg : String := "No service registered for identifier"

/-- `provider.getService(serviceType)`: look the identifier up in the
registration table; an unregistered identifier fails with a resolution
error, as the netdi container does. -/
def Provider.getService (p : Provider) (serviceType : Nat) : Except DIError Nat :=
  match p.services.lookup serviceType with
  | some inst => Except.ok inst
  | none => Except.error (DIError.resolutionError noServiceMsg)

/-- A `ServiceScope` instance produced by `serviceProvider.createScope()`:
it carries its embedded resolving provider and an identity used to track
dispose calls in traces. -/
structure ScopeVal where
  serviceProvider : Provider
  scopeId : Nat
deriving DecidableEq, Repr

/-- JavaScript runtime values that can occupy the context slot under the
fixed key `SERVICE_SCOPE_KEY`.  The slot is typed `IServiceScope | undefined`
but at runtime any value can be stored there (the repository test suite
itself stores a plain `{}` cast to `IServiceScope`). -/
inductive JSValue where
  | undef
  | null
  | bool (b : Bool)
  | num (n : Int)
  | str (s : String)
  | plainObject
  | scopeV (s : ScopeVal)
deriving DecidableEq, Repr

/-- JavaScript truthiness, as tested by `if (!scope)`. -/
def JSValue.truthy : JSValue → Bool
  | .undef => false
  | .null => false
  | .bool b => b
  | .num n => decide (n ≠ 0)
  | .str s => decide (s ≠ "")
  | .plainObject => true
  | .scopeV _ => true

/-- `value instanceof ServiceScope`: only genuine container-produced scope
objects pass. -/
def JSValue.isServiceScope : JSValue → Bool
  | .scopeV _ => true
  | _ => false

/-- The Hono request context, restricted to the one slot this shim uses:
either nothing was ever written under `SERVICE_SCOPE_KEY`, or some runtime
value is stored there. -/
def Context := Option JSValue
deriving instance DecidableEq, Repr for Context

/-- `c.get(SERVICE_SCOPE_KEY)`: Hono returns `undefined` for an absent
slot. -/
def ctxGet : Context → JSValue
  | none => JSValue.undef
  | some v => v

/-- The message of the configuration error thrown by `useService` when the
slot value is falsy. -/
def scopeNotFoundMsg : String :=
  "Service scope not found in context. Did you add the injectServices middleware?"

/-- The message of the configuration error thrown by `useService` when the
slot value is truthy but not an `instanceof ServiceScope`. -/
def notValidScopeMsg : String :=
  "Service scope is not an instance of ServiceScope."

/-- `useService(c, serviceType)` from src/src/index.ts, in state-passing
form: the first component is the thrown error or returned instance, the
second component is the context as the call leaves it.  The body mirrors the
source line by line: read the slot, throw on a falsy value, throw on a
non-`ServiceScope` value, otherwise delegate to
`scope.serviceProvider.getService(serviceType)`.  The source contains no
write to the context, so the context is returned as received on every
path. -/
def useService (c : Context) (serviceType : Nat) : Except DIError Nat × Context :=
  let scope := ctxGet c
  if scope.truthy = false then
    (Except.error (DIError.configError scopeNotFoundMsg), c)
  else
    match scope with
    | .scopeV s => (s.serviceProvider.getService serviceType, c)
    | _ => (Except.error (DIError.configError notValidScopeMsg), c)

/-- Observable events of one middleware-handler invocation, in the order
the JavaScript event loop produces them. -/
inductive Event where
  | createScopeCall
  | ctxSet (s : ScopeVal)
  | nextStart
  | nextDone (ok : Bool)
  | disposeCall (scopeId : Nat)
  | disposeComplete (scopeId : Nat)
  | handlerSettled (ok : Bool)
deriving DecidableEq, Repr

/-- Behaviour of the root service provider passed to `injectServices`:
`createScope()` either returns a fresh scope or throws. -/
structure ProviderBeh where
  createScope : Except String ScopeVal
deriving Repr

/-- The runtime error raised when `createScope` is invoked on a null or
undefined provider. -/
def nullProviderMsg : String :=
  "TypeError: Cannot read properties of null (reading createScope)"

/-- `serviceProvider.createScope()` where the provider argument may be a
null/undefined value: on a missing provider the member access itself
throws. -/
def createScopeOf : Option ProviderBeh → Except String ScopeVal
  | none => Except.error nullProviderMsg
  | some p => p.createScope

/-- Behaviour of the continuation `next`: downstream handlers either
complete normally or reject with an error. -/
inductive NextBeh where
  | ok
  | throws (e : String)
deriving DecidableEq, Repr

/-- Outcome of one invocation of the handler returned by `injectServices`:
the event trace in event-loop order, the settled value of the promise the
handler returns, and the context as the invocation leaves it. -/
structure RunResult where
  trace : List Event
  result : Except String Unit
  finalCtx : Context
deriving Repr

/-- One invocation of the handler returned by `injectServices`, embedding
the body of src/src/index.ts lines 53–63.

* `createScope()` runs first; if it throws, the async handler rejects
  immediately: the slot is never written, `next` never runs, no dispose is
  attempted and the context is unchanged.
* Otherwise the scope is written into the slot (`c.set`, overwriting any
  prior value), `next` is awaited inside `try`, and the `finally` block
  invokes `scope.dispose()` exactly once whether `next` completed or threw.
* `scope.dispose()` is NOT awaited in the source.  A synchronous dispose
  therefore completes during the call, before the handler settles; an
  asynchronous dispose only starts there, and its completion is a later
  microtask, after the handler promise has settled. `disposeAsync` selects
  between the two.
* The handler settles with `next`'s outcome (the `finally` block neither
  swallows nor replaces it). -/
def runHandler (sp : Option ProviderBeh) (disposeAsync : Bool)
    (c : Context) (next : NextBeh) : RunResult :=
  match createScopeOf sp with
  | Except.error e =>
      { trace := [Event.createScopeCall, Event.handlerSettled false]
        result := Except.error e
        finalCtx := c }
  | Except.ok scope =>
      let cSet : Context := some (JSValue.scopeV scope)
      let nextOk : Bool := match next with
        | .ok => true
        | .throws _ => false
      let res : Except String Unit := match next with
        | .ok => Except.ok ()
        | .throws e => Except.error e
      let upToDispose : List Event :=
        [Event.createScopeCall, Event.ctxSet scope, Event.nextStart,
         Event.nextDone nextOk, Event.disposeCall scope.scopeId]
      let tail : List Event :=
        if disposeAsync then
          [Event.handlerSettled nextOk, Event.disposeComplete scope.scopeId]
        else
          [Event.disposeComplete scope.scopeId, Event.handlerSettled nextOk]
      { trace := upToDispose ++ tail
        result := res
        finalCtx := cSet }

/-- The middleware handler value returned by `injectServices`: a closure
capturing the provider argument unchanged. -/
structure Handler where
  provider : Option ProviderBeh
deriving Repr

/-- `injectServices(serviceProvider)` from src/src/index.ts: the function
body only builds and returns the handler closure; it never inspects the
provider and has no throwing path, which the `Except` result makes
explicit. -/
def injectServices (sp : Option ProviderBeh) : Except String Handler :=
  Except.ok { provider := sp }

/-- Running the handler returned by `injectServices`. -/
def Handler.run (h : Handler) (disposeAsync : Bool) (c : Context)
    (next : NextBeh) : RunResult :=
  runHandler h.provider disposeAsync c next

/-- Number of `dispose()` invocations recorded in a trace. -/
def countDispose (t : List Event) : Nat :=
  t.countP fun e => match e with
    | Event.disposeCall _ => true
    | _ => false

/-- Number of `createScope()` invocations recorded in a trace. -/
def countCreate (t : List Event) : Nat :=
  t.countP fun e => match e with
    | Event.createScopeCall => true
    | _ => false

/-- Number of writes into the context slot recorded in a trace. -/
def countSet (t : List Event) : Nat :=
  t.countP fun e => match e with
    | Event.ctxSet _ => true
    | _ => false

/-- Index of the first `createScope()` call in a trace. -/
def createIdx (t : List Event) : Nat :=
  t.findIdx fun e => match e with
    | Event.createScopeCall => true
    | _ => false

/-- Index of the first slot write in a trace. -/
def setIdx (t : List Event) : Nat :=
  t.findIdx fun e => match e with
    | Event.ctxSet _ => true
    | _ => false

/-- Index of the start of the continuation in a trace. -/
def nextStartIdx (t : List Event) : Nat :=
  t.findIdx fun e => match e with
    | Event.nextStart => true
    | _ => false

/-- Index of the completion (normal or thrown) of the continuation in a
trace. -/
def nextDoneIdx (t : List Event) : Nat :=
  t.findIdx fun e => match e with
    | Event.nextDone _ => true
    | _ => false

/-- Index of the `dispose()` invocation in a trace. -/
def disposeCallIdx (t : List Event) : Nat :=
  t.findIdx fun e => match e with
    | Event.disposeCall _ => true
    | _ => false

/-- Index of the completion of the disposal operation in a trace. -/
def disposeCompleteIdx (t : List Event) : Nat :=
  t.findIdx fun e => match e with
    | Event.disposeComplete _ => true
    | _ => false

/-- Index of the settlement of the handler promise in a trace. -/
def settledIdx (t : List Event) : Nat :=
  t.findIdx fun e => match e with
    | Event.handlerSettled _ => true
    | _ => false

/-- The property claimed of the handler promise: it settles only after the
disposal operation has completed. -/
def settlesAfterDisposalComplete (t : List Event) : Bool :=
  decide (disposeCompleteIdx t < settledIdx t)

/-- A concrete provider behaviour whose `createScope()` returns a scope with
an empty registration table, used in witnesses. -/
def sampleScope : ScopeVal := { serviceProvider := { services := [] }, scopeId := 0 }

/-- A concrete well-behaved root provider, used in witnesses. -/
def sampleProvider : ProviderBeh := { createScope := Except.ok sampleScope }

/-- A concrete error message for a throwing continuation, used in
witnesses. -/
def boomMsg : String := "boom"

/-- Claim C1: for every invocation of the handler returned by
`injectServices`, the created scope is disposed exactly once, whether the
continuation completes normally or throws; disposal is never skipped and
never runs twice. -/
theorem handler_disposes_exactly_once (sp : Option ProviderBeh)
    (scope : ScopeVal) (disposeAsync : Bool) (c : Context) (next : NextBeh)
    (hscope : createScopeOf sp = Except.ok scope) :
    countDispose (runHandler sp disposeAsync c next).trace = 1 := by
  unfold runHandler
  rw [hscope]
  cases next <;> cases disposeAsync <;>
    simp [countDispose, List.countP, List.countP.go]

/-- Witness for C1: a concrete run whose continuation throws still disposes
exactly once. -/
theorem handler_disposes_exactly_once_witness :
    createScopeOf (some sampleProvider) = Except.ok sampleScope ∧
    countDispose
      (runHandler (some sampleProvider) false none (NextBeh.throws boomMsg)).trace = 1 :=
  ⟨rfl, handler_disposes_exactly_once (some sampleProvider) sampleScope false
    none (NextBeh.throws boomMsg) rfl⟩

/-- Counterexample to C2 as stated: with an asynchronous dispose the handler
promise settles BEFORE the disposal operation completes, because the source
invokes `scope.dispose()` in the `finally` block without awaiting it. -/
theorem handler_settles_before_async_dispose_completes :
    settlesAfterDisposalComplete
      (runHandler (some sampleProvider) true none NextBeh.ok).trace = false := by
  rfl

/-- Claim C2 (amended): the handler promise settles only after the
continuation has completed and `dispose()` has been invoked; when dispose is
synchronous, disposal has also completed before settlement, but when dispose
is asynchronous its completion is not awaited. -/
theorem handler_settles_after_next_and_dispose_call (sp : Option ProviderBeh)
    (scope : ScopeVal) (disposeAsync : Bool) (c : Context) (next : NextBeh)
    (hscope : createScopeOf sp = Except.ok scope) :
    nextDoneIdx (runHandler sp disposeAsync c next).trace <
      settledIdx (runHandler sp disposeAsync c next).trace ∧
    disposeCallIdx (runHandler sp disposeAsync c next).trace <
      settledIdx (runHandler sp disposeAsync c next).trace ∧
    (disposeAsync = false →
      settlesAfterDisposalComplete
        (runHandler sp disposeAsync c next).trace = true) := by
  unfold runHandler
  rw [hscope]
  cases next <;> cases disposeAsync <;>
    simp [nextDoneIdx, disposeCallIdx, settledIdx, disposeCompleteIdx,
      settlesAfterDisposalComplete, List.findIdx, List.findIdx.go]

/-- Witness for the amended C2: a concrete run with a synchronous dispose
settles after both the continuation and disposal have completed. -/
theorem handler_settles_after_next_and_dispose_call_witness :
    createScopeOf (some sampleProvider) = Except.ok sampleScope ∧
    nextDoneIdx (runHandler (some sampleProvider) false none NextBeh.ok).trace <
      settledIdx (runHandler (some sampleProvider) false none NextBeh.ok).trace ∧
    disposeCallIdx (runHandler (some sampleProvider) false none NextBeh.ok).trace <
      settledIdx (runHandler (some sampleProvider) false none NextBeh.ok).trace ∧
    (false = false →
      settlesAfterDisposalComplete
        (runHandler (some sampleProvider) false none NextBeh.ok).trace = true) :=
  ⟨rfl, handler_settles_after_next_and_dispose_call (some sampleProvider)
    sampleScope false none NextBeh.ok rfl⟩

/-- Claim C3: when nothing was ever written to the slot, `useService` fails
with the configuration error about a missing scope, never with a resolution
error, and no provider is consulted. -/
theorem useService_absent_slot_config_error (serviceType : Nat) :
    (useService none serviceType).1 =
      Except.error (DIError.configError scopeNotFoundMsg) := by
  rfl

/-- Counterexample to C4 as stated: `null` is a value stored in the slot
that is not a scope, yet `useService` fails with the missing-scope
configuration error, not with the invalid-scope one, because the source
guards with the falsy test `if (!scope)` before the `instanceof` check. -/
theorem useService_falsy_nonscope_counterexample :
    (useService (some JSValue.null) 0).1 =
      Except.error (DIError.configError scopeNotFoundMsg) ∧
    scopeNotFoundMsg ≠ notValidScopeMsg :=
  ⟨rfl, by decide⟩

/-- Claim C4 (amended): for every truthy non-scope value stored in the slot,
`useService` fails with the invalid-scope configuration error and never
attempts resolution; a falsy stored value fails with the missing-scope
configuration error instead. -/
theorem useService_truthy_nonscope_config_error (v : JSValue)
    (serviceType : Nat) (htruthy : v.truthy = true)
    (hshape : v.isServiceScope = false) :
    (useService (some v) serviceType).1 =
      Except.error (DIError.configError notValidScopeMsg) := by
  cases v <;>
    simp_all [useService, ctxGet, JSValue.truthy, JSValue.isServiceScope]

/-- Witness for the amended C4: a plain empty object in the slot produces
the invalid-scope configuration error. -/
theorem useService_truthy_nonscope_config_error_witness :
    JSValue.plainObject.truthy = true ∧
    JSValue.plainObject.isServiceScope = false ∧
    (useService (some JSValue.plainObject) 0).1 =
      Except.error (DIError.configError notValidScopeMsg) :=
  ⟨rfl, rfl, useService_truthy_nonscope_config_error JSValue.plainObject 0 rfl rfl⟩

/-- Claim C5: when the slot holds a valid scope, `useService` returns
exactly the result of the scope provider resolution, so a resolution error
propagates unchanged and a resolved instance is returned as is. -/
theorem useService_valid_scope_delegates (s : ScopeVal) (serviceType : Nat) :
    (useService (some (JSValue.scopeV s)) serviceType).1 =
      s.serviceProvider.getService serviceType := by
  rfl

/-- Claim C6: scope creation and publication strictly precede the start of
the continuation, and disposal is initiated strictly after the continuation
has completed, whether it succeeded or failed. -/
theorem scope_creation_precedes_next_dispose_follows (sp : Option ProviderBeh)
    (scope : ScopeVal) (disposeAsync : Bool) (c : Context) (next : NextBeh)
    (hscope : createScopeOf sp = Except.ok scope) :
    createIdx (runHandler sp disposeAsync c next).trace <
      setIdx (runHandler sp disposeAsync c next).trace ∧
    setIdx (runHandler sp disposeAsync c next).trace <
      nextStartIdx (runHandler sp disposeAsync c next).trace ∧
    nextDoneIdx (runHandler sp disposeAsync c next).trace <
      disposeCallIdx (runHandler sp disposeAsync c next).trace := by
  unfold runHandler
  rw [hscope]
  cases next <;> cases disposeAsync <;>
    simp [createIdx, setIdx, nextStartIdx, nextDoneIdx, disposeCallIdx,
      List.findIdx, List.findIdx.go]

/-- Witness for C6: ordering on a concrete run with a throwing
continuation. -/
theorem scope_creation_precedes_next_dispose_follows_witness :
    createScopeOf (some sampleProvider) = Except.ok sampleScope ∧
    (createIdx
        (runHandler (some sampleProvider) true none (NextBeh.throws boomMsg)).trace <
      setIdx
        (runHandler (some sampleProvider) true none (NextBeh.throws boomMsg)).trace ∧
    setIdx
        (runHandler (some sampleProvider) true none (NextBeh.throws boomMsg)).trace <
      nextStartIdx
        (runHandler (some sampleProvider) true none (NextBeh.throws boomMsg)).trace ∧
    nextDoneIdx
        (runHandler (some sampleProvider) true none (NextBeh.throws boomMsg)).trace <
      disposeCallIdx
        (runHandler (some sampleProvider) true none (NextBeh.throws boomMsg)).trace) :=
  ⟨rfl, scope_creation_precedes_next_dispose_follows (some sampleProvider)
    sampleScope true none (NextBeh.throws boomMsg) rfl⟩

/-- Claim C7: each handler invocation calls `createScope` exactly once,
publishes at most one scope, and on success the single slot write stores
that scope, overwriting whatever value the slot held before. -/
theorem handler_creates_and_publishes_once (sp : Option ProviderBeh)
    (disposeAsync : Bool) (c : Context) (next : NextBeh) :
    countCreate (runHandler sp disposeAsync c next).trace = 1 ∧
    countSet (runHandler sp disposeAsync c next).trace ≤ 1 ∧
    ∀ scope, createScopeOf sp = Except.ok scope →
      countSet (runHandler sp disposeAsync c next).trace = 1 ∧
      (runHandler sp disposeAsync c next).finalCtx =
        some (JSValue.scopeV scope) := by
  rcases hcs : createScopeOf sp with e | scope
  all_goals unfold runHandler
  all_goals rw [hcs]
  · refine ⟨?_, ?_, ?_⟩
    · simp [countCreate, List.countP, List.countP.go]
    · simp [countSet, List.countP, List.countP.go]
    · intro scope hscope
      simp [hcs] at hscope
  · cases next <;> cases disposeAsync <;>
      refine ⟨?_, ?_, ?_⟩ <;>
      simp [countCreate, countSet, List.countP, List.countP.go]

/-- Witness for C7: a concrete run with a prior value in the slot has one
creation, one publication, and the slot ends up holding the fresh scope. -/
theorem handler_creates_and_publishes_once_witness :
    countCreate
      (runHandler (some sampleProvider) false (some JSValue.plainObject)
        NextBeh.ok).trace = 1 ∧
    countSet
      (runHandler (some sampleProvider) false (some JSValue.plainObject)
        NextBeh.ok).trace = 1 ∧
    (runHandler (some sampleProvider) false (some JSValue.plainObject)
        NextBeh.ok).finalCtx = some (JSValue.scopeV sampleScope) := by
  have h := handler_creates_and_publishes_once (some sampleProvider) false
    (some JSValue.plainObject) NextBeh.ok
  exact ⟨h.1, (h.2.2 sampleScope rfl).1, (h.2.2 sampleScope rfl).2⟩

/-- Claim C8: `useService` never mutates the context slot: the context after
any call is exactly the context before it. -/
theorem useService_preserves_context (c : Context) (serviceType : Nat) :
    (useService c serviceType).2 = c := by
  simp only [useService]
  split
  · rfl
  · split <;> rfl

/-- Claim C9: `injectServices` itself never throws, for any provider
including a null/undefined one; it returns the handler closure capturing the
provider uninspected, and a null provider only fails later, when the handler
runs and the `createScope` member access throws. -/
theorem injectServices_never_throws (sp : Option ProviderBeh)
    (disposeAsync : Bool) (c : Context) (next : NextBeh) :
    injectServices sp = Except.ok { provider := sp } ∧
    (Handler.run { provider := none } disposeAsync c next).result =
      Except.error nullProviderMsg ∧
    (Handler.run { provider := none } disposeAsync c next).trace =
      [Event.createScopeCall, Event.handlerSettled false] :=
  ⟨rfl, rfl, rfl⟩

/-- Claim C10: when `createScope` throws, the slot is never written, no
dispose is attempted, the context is left unchanged, and the error
propagates as the handler outcome. -/
theorem createScope_failure_leaves_context_unchanged (sp : Option ProviderBeh)
    (disposeAsync : Bool) (c : Context) (next : NextBeh) (e : String)
    (herr : createScopeOf sp = Except.error e) :
    (runHandler sp disposeAsync c next).finalCtx = c ∧
    countSet (runHandler sp disposeAsync c next).trace = 0 ∧
    countDispose (runHandler sp disposeAsync c next).trace = 0 ∧
    (runHandler sp disposeAsync c next).result = Except.error e := by
  unfold runHandler
  rw [herr]
  refine ⟨rfl, ?_, ?_, rfl⟩ <;>
    simp [countSet, countDispose, List.countP, List.countP.go]

/-- Witness for C10: running the handler over a null provider leaves a
concrete context unchanged with no publication and no disposal. -/
theorem createScope_failure_leaves_context_unchanged_witness :
    createScopeOf none = Except.error nullProviderMsg ∧
    (runHandler none true (some JSValue.plainObject) NextBeh.ok).finalCtx =
      some JSValue.plainObject ∧
    countSet (runHandler none true (some JSValue.plainObject) NextBeh.ok).trace = 0 ∧
    countDispose
      (runHandler none true (some JSValue.plainObject) NextBeh.ok).trace = 0 ∧
    (runHandler none true (some JSValue.plainObject) NextBeh.ok).result =
      Except.error nullProviderMsg :=
  ⟨rfl, createScope_failure_leaves_context_unchanged none true
    (some JSValue.plainObject) NextBeh.ok nullProviderMsg rfl⟩

end HonoNetdi
